import Mathlib

/-!
Verification development for the IERAS accident-detection pipeline.

Shallow embedding of the core of `src/ai_module`:
* `AccidentDetector` and its methods `process_frame`, `start_clip`,
  `handle_clip`, `write_clip` (from `engine/object_detection.py`);
* the per-camera coordinator steps of `track_videos_multithreaded`
  (from `main.py`): record creation, clip pickup, the cross-camera
  stuck-accident safety net, and `upload_clip_async`;
* the non-blocking frame offer of `MultiThreadingTracker._capture_loop`
  (from `engine/multithreading_tracker.py`).

External effects are passed as explicit inputs: wall-clock time
(`time.time()`) as a rational `now`, the YOLO inference result as the
list of detection confidences, filesystem / ffmpeg outcomes as an `FS`
record, and the Supabase record store as emitted `RecUpdate` requests.
-/

/-- Opaque image buffer; the core never inspects pixel data. -/
abbrev Frame := Nat

/-- `deque(maxlen := m)` append: the new element goes to the right and,
when capacity is exceeded, the oldest (leftmost) entries are dropped. -/
def dequeAppend (m : Nat) (b : List α) (x : α) : List α :=
  if b.length + 1 ≤ m then b ++ [x] else (b ++ [x]).drop (b.length + 1 - m)

/-- The `active_clip` dict of `AccidentDetector`: sequence-number window
`[start, end]`, collected frames, and the last collected sequence number.
`start`/`stop` can be negative in Python, hence `Int` (`stop` embeds the
source's `end` key, a Lean keyword). -/
structure Clip where
  start : Int
  stop : Int
  frames : List Frame
  last : Nat
  deriving DecidableEq, Repr

/-- Event emitted by `process_frame`: the dict
`{"type": "ACCIDENT", "time": now}`. -/
inductive DetEvent where
  | accident (time : ℚ)
  deriving DecidableEq, Repr

/-- State of `AccidentDetector.__init__`: frame counter, ring buffer of
`(frame, frame_id)` pairs with `maxlen = fps * 20`, pending detection
timestamps, time of the last confirmed trigger, and the optional open
clip window. -/
structure AccidentDetector where
  fps : Nat
  frame_id : Nat
  frame_buffer : List (Frame × Nat)
  pending : List ℚ
  global_last : ℚ
  active_clip : Option Clip
  deriving DecidableEq, Repr

/-- `self.GLOBAL_COOLDOWN = 12` seconds. -/
def GLOBAL_COOLDOWN : ℚ := 12

/-- `AccidentDetector(model_path, fps)` initial state. -/
def initDetector (fps : Nat) : AccidentDetector :=
  { fps := fps, frame_id := 0, frame_buffer := [], pending := [],
    global_last := 0, active_clip := none }

/-- `AccidentDetector.start_clip`: open a window anchored at the current
`frame_id`, spanning `frame_id ± fps * 5`. -/
def AccidentDetector.start_clip (d : AccidentDetector) : AccidentDetector :=
  let c : Clip :=
    { start := (d.frame_id : Int) - d.fps * 5,
      stop := (d.frame_id : Int) + d.fps * 5,
      frames := [], last := 0 }
  { d with active_clip := some c }

/-- `AccidentDetector.process_frame`. Inputs beyond the frame: the
confidences returned by the YOLO model for this frame and the current
wall-clock time `now`. Returns the new detector state and the emitted
events. -/
def AccidentDetector.process_frame (d : AccidentDetector) (frame : Frame)
    (confs : List ℚ) (now : ℚ) : AccidentDetector × List DetEvent :=
  let fid := d.frame_id + 1
  let buf := dequeAppend (d.fps * 20) d.frame_buffer (frame, fid)
  let detections := confs.filter (fun c => (0.4 : ℚ) < c)
  let d1 : AccidentDetector := { d with frame_id := fid, frame_buffer := buf }
  if detections ≠ [] ∧ now - d.global_last > GLOBAL_COOLDOWN then
    let pending1 := d1.pending ++ [now]
    if pending1.length ≥ 3 then
      (AccidentDetector.start_clip
        { d1 with global_last := now, pending := [] },
       [DetEvent.accident now])
    else
      ({ d1 with pending := pending1 }, [])
  else
    (d1, [])

/-- Outcome of the ffmpeg transcode step in `write_clip`: success, or one
of the three handled exception classes (`subprocess.CalledProcessError`,
`FileNotFoundError`, any other exception including `TimeoutExpired`). -/
inductive TranscodeOutcome where
  | success
  | calledProcessError
  | fileNotFound
  | otherError
  deriving DecidableEq, Repr

/-- Filesystem oracle for one `write_clip` call: the transcode outcome and
whether `os.path.exists(temp_name)` holds when it is checked. -/
structure FS where
  outcome : TranscodeOutcome
  tempExists : Bool
  deriving DecidableEq, Repr

/-- Artifact path returned by `write_clip`: `events/ACCIDENT_{t}.mp4` or
the fallback with the extension adjusted to `.avi`; `t` is
`int(time.time())`. -/
inductive ClipPath where
  | mp4 (t : Int)
  | avi (t : Int)
  deriving DecidableEq, Repr

/-- What happened to the intermediate AVI file during `write_clip`. -/
inductive TempFate where
  | removed
  | renamedToAvi
  | untouched
  deriving DecidableEq, Repr

/-- `AccidentDetector.write_clip`: `None` on empty frames; on transcode
success return the final `.mp4` path and remove the intermediate file; on
any handled exception rename the intermediate file to `.avi` and return
that path if the intermediate file exists, else return `None`. -/
def write_clip (clip : Clip) (t : Int) (fs : FS) : Option ClipPath × TempFate :=
  if clip.frames = [] then (none, TempFate.untouched)
  else
    match fs.outcome with
    | TranscodeOutcome.success =>
        (some (ClipPath.mp4 t),
         if fs.tempExists then TempFate.removed else TempFate.untouched)
    | _ =>
        if fs.tempExists then (some (ClipPath.avi t), TempFate.renamedToAvi)
        else (none, TempFate.untouched)

/-- Clip-ready event emitted by `handle_clip`: the dict
`{"type": "ACCIDENT", "clip_path": path}` (only appended when
`write_clip` returned a path). -/
inductive ClipEvent where
  | ready (clip_path : ClipPath)
  deriving DecidableEq, Repr

/-- One iteration of the collection loop in `handle_clip`: append the
frame if its id lies in `[start, end]` and is newer than `last`. -/
def collectStep (c : Clip) (p : Frame × Nat) : Clip :=
  if c.start ≤ (p.2 : Int) ∧ (p.2 : Int) ≤ c.stop ∧ c.last < p.2 then
    { c with frames := c.frames ++ [p.1], last := p.2 }
  else c

/-- The full collection scan of `handle_clip` over the ring buffer. -/
def collectFrames (c : Clip) (buffer : List (Frame × Nat)) : Clip :=
  buffer.foldl collectStep c

/-- `AccidentDetector.handle_clip(final)`: collect buffered frames into
the open window, then finalize (calling `write_clip`) when `final` is set
or the current sequence number has passed the window end. `t` and `fs`
feed the embedded `write_clip`. -/
def AccidentDetector.handle_clip (d : AccidentDetector) (final : Bool)
    (t : Int) (fs : FS) : AccidentDetector × List ClipEvent :=
  match d.active_clip with
  | none => (d, [])
  | some c0 =>
      let c := collectFrames c0 d.frame_buffer
      if final = true ∨ (d.frame_id : Int) > c.stop then
        match (write_clip c t fs).1 with
        | some p => ({ d with active_clip := none }, [ClipEvent.ready p])
        | none => ({ d with active_clip := none }, [])
      else
        ({ d with active_clip := some c }, [])

/-- Per-camera coordinator state (`accident_states[video_source]` in
`track_videos_multithreaded`). -/
structure CamState where
  active : Bool
  accident_id : Option Nat
  last_event_time : ℚ
  camera_id : Nat
  latitude : ℚ
  longitude : ℚ
  deriving DecidableEq, Repr

/-- Status values written to the accident record. -/
inductive RecStatus where
  | DETECTED
  | TRIMMED
  | UPLOADED
  | UPLOAD_FAILED
  | FAILED
  deriving DecidableEq, Repr

/-- The `clip_path` field of a record update: either an artifact path or
the diagnostic string `"No clip generated after ...s"` (carrying the
elapsed seconds). -/
inductive ClipField where
  | path (p : ClipPath)
  | diagnostic (secs : ℚ)
  deriving DecidableEq, Repr

/-- One `update_accident(accident_id, data)` request issued to the record
store. -/
structure RecUpdate where
  id : Nat
  status : RecStatus
  clip_path : Option ClipField
  video_url : Option Nat
  deriving DecidableEq, Repr

/-- One background upload dispatch:
`multiprocessing.Process(target=upload_clip_async, args=(clip_path, accident_id))`. -/
structure UploadDispatch where
  clip_path : ClipPath
  accident_id : Nat
  deriving DecidableEq, Repr

/-- Step 1 of the coordinator tick (`main.py` lines 257-275): when the
camera is not active, on an ACCIDENT event with more than 45 seconds
since `last_event_time`, request record creation. `createResult` is the
record store's reply (`create_accident_event`). Returns the new state and
whether a creation request was issued this tick. -/
def step1 (s : CamState) (events : List DetEvent) (now : ℚ)
    (createResult : Option Nat) : CamState × Bool :=
  if s.active = false ∧ events ≠ [] ∧ now - s.last_event_time > 45 then
    match createResult with
    | some rid =>
        ({ s with accident_id := some rid, active := true,
                  last_event_time := now }, true)
    | none => (s, true)
  else (s, false)

/-- Step 2 of the coordinator tick (`main.py` lines 285-309): if the
camera is active with a record and `handle_clip` returned a ready clip,
update the record to TRIMMED with the clip path, dispatch a background
upload, and reset the camera state immediately. -/
def step2 (s : CamState) (ready : List ClipEvent) :
    CamState × List RecUpdate × List UploadDispatch :=
  match s.accident_id with
  | some rid =>
      if s.active = true then
        match ready with
        | ClipEvent.ready p :: _ =>
            ({ s with active := false, accident_id := none },
             [{ id := rid, status := RecStatus.TRIMMED,
                clip_path := some (ClipField.path p), video_url := none }],
             [{ clip_path := p, accident_id := rid }])
        | [] => (s, [], [])
      else (s, [], [])
  | none => (s, [], [])

/-- Result of the safety net on one camera: its new detector/state pair,
the record updates issued, and the uploads dispatched. -/
structure CamOut where
  entry : AccidentDetector × CamState
  updates : List RecUpdate
  uploads : List UploadDispatch
  deriving DecidableEq, Repr

/-- The stuck-accident safety net applied to one camera (`main.py` lines
313-352): if the camera is active with a record and more than 45 seconds
have passed since `last_event_time`, force `handle_clip(final=True)`; a
resulting clip yields a TRIMMED update plus an upload dispatch, no clip
yields a FAILED update with a diagnostic; either way the state resets. -/
def safetyStep (e : AccidentDetector × CamState) (now : ℚ) (t : Int)
    (fs : FS) : CamOut :=
  match e.2.accident_id with
  | some rid =>
      if e.2.active = true ∧ now - e.2.last_event_time > 45 then
        let r := e.1.handle_clip true t fs
        match r.2 with
        | ClipEvent.ready p :: _ =>
            { entry := (r.1, { e.2 with active := false, accident_id := none }),
              updates := [{ id := rid, status := RecStatus.TRIMMED,
                            clip_path := some (ClipField.path p),
                            video_url := none }],
              uploads := [{ clip_path := p, accident_id := rid }] }
        | [] =>
            { entry := (r.1, { e.2 with active := false, accident_id := none }),
              updates := [{ id := rid, status := RecStatus.FAILED,
                            clip_path := some
                              (ClipField.diagnostic (now - e.2.last_event_time)),
                            video_url := none }],
              uploads := [] }
      else { entry := e, updates := [], uploads := [] }
  | none => { entry := e, updates := [], uploads := [] }

/-- The safety net runs over all cameras on every tick, regardless of
which camera's frame triggered the tick. -/
def safetyNet (cams : List (AccidentDetector × CamState)) (now : ℚ)
    (t : Int) (fs : FS) : List CamOut :=
  cams.map (fun e => safetyStep e now t fs)

/-- Environment of one `upload_clip_async` run: whether the local file
exists, whether the storage upload succeeds, the public URL returned on
success, and whether the local `os.remove` succeeds. -/
structure UploadEnv where
  fileExists : Bool
  uploadOk : Bool
  url : Nat
  removeOk : Bool
  deriving DecidableEq, Repr

/-- `upload_clip_async(clip_path, accident_id)` (`main.py` lines 89-135):
returns the record updates issued and whether the local artifact was
removed. Missing file: nothing happens. Success: record set to UPLOADED
with the public URL, local file removed (best effort). Failure: record
set to UPLOAD_FAILED keeping the clip path, local file retained. -/
def upload_clip_async (p : ClipPath) (accident_id : Nat) (env : UploadEnv) :
    List RecUpdate × Bool :=
  if env.fileExists = false then ([], false)
  else if env.uploadOk = true then
    ([{ id := accident_id, status := RecStatus.UPLOADED,
        clip_path := none, video_url := some env.url }], env.removeOk)
  else
    ([{ id := accident_id, status := RecStatus.UPLOAD_FAILED,
        clip_path := some (ClipField.path p), video_url := none }], false)

/-- External inputs of one coordinator tick, seen from one camera:
whether this camera's frame was the one dequeued (`isCurrent`), the frame
and its inference confidences, the wall-clock time, the record store's
reply to a creation request, and the filesystem oracle for `write_clip`. -/
structure TickInput where
  isCurrent : Bool
  frame : Frame
  confs : List ℚ
  now : ℚ
  createResult : Option Nat
  t : Int
  fs : FS

/-- One coordinator tick projected onto a single camera, in source order:
when current, `process_frame`, record creation (step 1), `handle_clip`
plus clip pickup (step 2); then, always, the safety net. Returns the new
(detector, state) pair and the id of the record created this tick, if
any. -/
def camTick (p : AccidentDetector × CamState) (inp : TickInput) :
    (AccidentDetector × CamState) × Option Nat :=
  if inp.isCurrent = true then
    let r := p.1.process_frame inp.frame inp.confs inp.now
    let r1 := step1 p.2 r.2 inp.now inp.createResult
    let created := if r1.2 = true then inp.createResult else none
    let rc := r.1.handle_clip false inp.t inp.fs
    let r2 := step2 r1.1 rc.2
    let so := safetyStep (rc.1, r2.1) inp.now inp.t inp.fs
    (so.entry, created)
  else
    let so := safetyStep p inp.now inp.t inp.fs
    (so.entry, none)

/-- The wall-clock times of the ticks on which a record was successfully
created, along a run of coordinator ticks for one camera. -/
def creationTimes (p : AccidentDetector × CamState) :
    List TickInput → List ℚ
  | [] => []
  | i :: rest =>
      let r := camTick p i
      (if r.2.isSome = true then [i.now] else []) ++ creationTimes r.1 rest

/-- A frame message as put on the channel by `_capture_loop`:
`(True, source_id, frame, time.time())`. -/
structure FrameMsg where
  ok : Bool
  source_id : Nat
  frame : Frame
  timestamp : ℚ
  deriving DecidableEq, Repr

/-- `queue.Queue.full()` for a queue with bound `maxsize` holding `q`:
full only when `maxsize` is positive and reached. -/
def queueIsFull (maxsize : Nat) (q : List FrameMsg) : Prop :=
  0 < maxsize ∧ maxsize ≤ q.length

instance (maxsize : Nat) (q : List FrameMsg) :
    Decidable (queueIsFull maxsize q) := by
  unfold queueIsFull; infer_instance

/-- The channel offer of `_capture_loop` (`multithreading_tracker.py`
lines 29-30): after a successful read, wrap the frame with its source id
and the wall-clock time and enqueue it unless the queue is full, in which
case the frame is dropped. -/
def captureOffer (maxsize : Nat) (q : List FrameMsg) (source_id : Nat)
    (frame : Frame) (now : ℚ) : List FrameMsg :=
  if queueIsFull maxsize q then q
  else q ++ [{ ok := true, source_id := source_id, frame := frame,
               timestamp := now }]

section Sanity

example :
    ((initDetector 1).process_frame 0 [1] 13).1.pending = [13] := by
  norm_num [initDetector, AccidentDetector.process_frame, dequeAppend,
    GLOBAL_COOLDOWN, List.filter]

example :
    (((initDetector 1).process_frame 0 [1] 13).1.process_frame 0 [1] 14).2 = [] := by
  norm_num [initDetector, AccidentDetector.process_frame, dequeAppend,
    GLOBAL_COOLDOWN, List.filter]

end Sanity

/-- Claim C2: a qualifying frame (some detection with confidence above
0.4, and more than the 12-second global cooldown elapsed since the last
trigger) appends the current time to the pending sequence and emits no
event while fewer than 3 timestamps are pending; on reaching 3, the
pending sequence is cleared, the last trigger time is set to now, exactly
one ACCIDENT event is emitted, and a fresh ClipWindow anchored at the
current sequence number is opened. -/
theorem C2_process_frame_protocol (d : AccidentDetector) (f : Frame)
    (confs : List ℚ) (now : ℚ)
    (hdet : confs.filter (fun c => (0.4 : ℚ) < c) ≠ [])
    (hcool : now - d.global_last > GLOBAL_COOLDOWN) :
    (d.pending.length + 1 < 3 →
      (d.process_frame f confs now).1.pending = d.pending ++ [now]
      ∧ (d.process_frame f confs now).2 = [])
    ∧ (d.pending.length + 1 ≥ 3 →
      (d.process_frame f confs now).2 = [DetEvent.accident now]
      ∧ (d.process_frame f confs now).1.pending = []
      ∧ (d.process_frame f confs now).1.global_last = now
      ∧ (d.process_frame f confs now).1.active_clip = some
          { start := ((d.frame_id : Int) + 1) - d.fps * 5,
            stop := ((d.frame_id : Int) + 1) + d.fps * 5,
            frames := [], last := 0 }) := by
  unfold AccidentDetector.process_frame AccidentDetector.start_clip
  simp only [if_pos (And.intro hdet hcool)]
  constructor
  · intro hlt
    rw [if_neg]
    · simp
    · simp only [List.length_append, List.length_cons, List.length_nil]
      omega
  · intro hge
    rw [if_pos]
    · simp [Int.ofNat_add_out]
    · simp only [List.length_append, List.length_cons, List.length_nil]
      omega

/-- Concrete run of `C2_process_frame_protocol`: with two pending
timestamps, a qualifying frame at time 15 fires exactly one ACCIDENT. -/
theorem C2_witness :
    ((⟨1, 0, [], [13, 14], 0, none⟩ : AccidentDetector).process_frame
      0 [1] 15).2 = [DetEvent.accident 15] :=
  ((C2_process_frame_protocol ⟨1, 0, [], [13, 14], 0, none⟩ 0 [1] 15
      (by norm_num)
      (by norm_num [GLOBAL_COOLDOWN])).2 (by norm_num)).1

lemma collectStep_start (c : Clip) (p : Frame × Nat) :
    (collectStep c p).start = c.start := by
  unfold collectStep; split <;> rfl

lemma collectStep_stop (c : Clip) (p : Frame × Nat) :
    (collectStep c p).stop = c.stop := by
  unfold collectStep; split <;> rfl

lemma collectFrames_start (b : List (Frame × Nat)) (c : Clip) :
    (collectFrames c b).start = c.start := by
  induction b generalizing c with
  | nil => rfl
  | cons p rest ih =>
      rw [collectFrames, List.foldl_cons, ← collectFrames, ih,
        collectStep_start]

lemma collectFrames_stop (b : List (Frame × Nat)) (c : Clip) :
    (collectFrames c b).stop = c.stop := by
  induction b generalizing c with
  | nil => rfl
  | cons p rest ih =>
      rw [collectFrames, List.foldl_cons, ← collectFrames, ih,
        collectStep_stop]

/-- Claim C3: the ClipWindow created at a trigger spans sequence numbers
`[triggerSeq - FPS*5, triggerSeq + FPS*5]`, and `handle_clip` finalizes
(discards) the open window exactly when `final` is forced or the
detector's current sequence number exceeds the window end. -/
theorem C3_window_span_and_finalization (d : AccidentDetector) (c : Clip)
    (final : Bool) (t : Int) (fs : FS)
    (h : d.active_clip = some c) :
    (AccidentDetector.start_clip d).active_clip = some
      { start := (d.frame_id : Int) - d.fps * 5,
        stop := (d.frame_id : Int) + d.fps * 5, frames := [], last := 0 }
    ∧ ((d.handle_clip final t fs).1.active_clip = none ↔
        (final = true ∨ (d.frame_id : Int) > c.stop)) := by
  constructor
  · rfl
  · unfold AccidentDetector.handle_clip
    rw [h]
    simp only [collectFrames_stop]
    by_cases hcond : final = true ∨ (d.frame_id : Int) > c.stop
    · rw [if_pos hcond]
      rcases hw : (write_clip (collectFrames c d.frame_buffer) t fs).1 with _ | p <;>
        simp [hw, hcond]
    · rw [if_neg hcond]
      simp [hcond]

/-- Concrete run of `C3_window_span_and_finalization`: with FPS 10 and
trigger sequence 100 the window is `[50, 150]`, and a forced call
finalizes it. -/
theorem C3_witness :
    ((⟨10, 100, [], [], 0, some ⟨50, 150, [], 0⟩⟩ :
        AccidentDetector).start_clip.active_clip
      = some ⟨50, 150, [], 0⟩)
    ∧ ((⟨10, 100, [], [], 0, some ⟨50, 150, [], 0⟩⟩ :
        AccidentDetector).handle_clip true 0
          ⟨TranscodeOutcome.success, true⟩).1.active_clip = none := by
  have h := C3_window_span_and_finalization
    ⟨10, 100, [], [], 0, some ⟨50, 150, [], 0⟩⟩ ⟨50, 150, [], 0⟩ true 0
    ⟨TranscodeOutcome.success, true⟩ rfl
  exact ⟨by simpa using h.1, h.2.mpr (Or.inl rfl)⟩

lemma dequeAppend_length_le (m : Nat) (b : List α) (x : α) :
    (dequeAppend m b x).length ≤ m := by
  unfold dequeAppend
  split
  · simpa using by omega
  · simp only [List.length_drop, List.length_append, List.length_cons,
      List.length_nil]
    omega

lemma process_frame_buffer (d : AccidentDetector) (f : Frame)
    (confs : List ℚ) (now : ℚ) :
    (d.process_frame f confs now).1.frame_buffer
      = dequeAppend (d.fps * 20) d.frame_buffer (f, d.frame_id + 1) := by
  simp only [AccidentDetector.process_frame, AccidentDetector.start_clip]
  split
  · split <;> rfl
  · rfl

/-- Claim C8: the per-camera ring buffer never holds more than `FPS*20`
frames, and appending a frame to a full (non-degenerate) buffer evicts
the oldest entry first: the new buffer is the old buffer without its head
plus the new frame at the end. -/
theorem C8_ring_buffer_bound_fifo (d : AccidentDetector) (f : Frame)
    (confs : List ℚ) (now : ℚ) :
    (d.process_frame f confs now).1.frame_buffer.length ≤ d.fps * 20
    ∧ (d.frame_buffer.length = d.fps * 20 → 0 < d.fps * 20 →
        (d.process_frame f confs now).1.frame_buffer
          = d.frame_buffer.tail ++ [(f, d.frame_id + 1)]) := by
  rw [process_frame_buffer]
  refine ⟨dequeAppend_length_le _ _ _, fun hfull hpos => ?_⟩
  unfold dequeAppend
  have hlt : ¬ (d.frame_buffer.length + 1 ≤ d.fps * 20) := by omega
  rw [if_neg hlt]
  have hone : d.frame_buffer.length + 1 - d.fps * 20 = 1 := by omega
  rw [hone]
  rcases hb : d.frame_buffer with _ | ⟨hd, tl⟩
  · rw [hb] at hfull
    simp at hfull
    omega
  · simp

/-- Concrete run of `C8_ring_buffer_bound_fifo`: appending to a full
20-slot buffer (FPS 1) drops the oldest pair and keeps the bound. -/
theorem C8_witness :
    (((⟨1, 20, (List.range 20).map (fun i => ((0 : Frame), i + 1)), [],
        0, none⟩ : AccidentDetector).process_frame 9 [] 0).1.frame_buffer
      = ((List.range 20).map (fun i => ((0 : Frame), i + 1))).tail
          ++ [(9, 21)])
    ∧ (((⟨1, 20, (List.range 20).map (fun i => ((0 : Frame), i + 1)), [],
        0, none⟩ : AccidentDetector).process_frame 9 [] 0).1.frame_buffer.length
        ≤ 1 * 20) := by
  have h := C8_ring_buffer_bound_fifo
    ⟨1, 20, (List.range 20).map (fun i => ((0 : Frame), i + 1)), [], 0, none⟩
    9 [] 0
  exact ⟨h.2 (by simp) (by norm_num), h.1⟩

/-- Claim C9: each successfully read frame in the capture loop is wrapped
with its source id and the wall-clock timestamp and offered to the frame
channel non-blockingly: a full channel drops the frame, otherwise it is
enqueued at the tail. (The embedding is of one loop iteration's offer;
`captureOffer` is a total function, so no call blocks.) -/
theorem C9_nonblocking_offer (maxsize : Nat) (q : List FrameMsg)
    (source_id : Nat) (frame : Frame) (now : ℚ) :
    (queueIsFull maxsize q → captureOffer maxsize q source_id frame now = q)
    ∧ (¬ queueIsFull maxsize q →
        captureOffer maxsize q source_id frame now
          = q ++ [{ ok := true, source_id := source_id, frame := frame,
                    timestamp := now }]) := by
  constructor <;> intro h <;> simp [captureOffer, h]

/-- Concrete run of `C9_nonblocking_offer`: a full 2-slot queue drops the
frame; an empty queue receives the wrapped message. -/
theorem C9_witness :
    (captureOffer 2 [⟨true, 0, 0, 0⟩, ⟨true, 0, 0, 0⟩] 7 3 5
      = [⟨true, 0, 0, 0⟩, ⟨true, 0, 0, 0⟩])
    ∧ (captureOffer 2 [] 7 3 5
      = [{ ok := true, source_id := 7, frame := 3, timestamp := 5 }]) :=
  ⟨(C9_nonblocking_offer 2 [⟨true, 0, 0, 0⟩, ⟨true, 0, 0, 0⟩] 7 3 5).1
      (by constructor <;> norm_num),
   (C9_nonblocking_offer 2 [] 7 3 5).2 (by simp [queueIsFull])⟩

/-- Claim C4 counterexample: with one frame supplied (non-empty input)
but the intermediate file absent when the transcode failure is handled,
`write_clip` returns no artifact, contradicting the claim that a null
result occurs only for an empty frame list. This is the explicit
`return None` after the `os.path.exists(temp_name)` guard in each
exception handler of the source. -/
theorem C4_counterexample :
    (write_clip { start := -1, stop := 1, frames := [0], last := 1 } 5
        { outcome := TranscodeOutcome.fileNotFound, tempExists := false }).1
      = none
    ∧ ({ start := -1, stop := 1, frames := [0], last := 1 } : Clip).frames
      ≠ [] := by
  constructor
  · rfl
  · simp

/-- Claim C4 (amended): for a non-empty frame list, `write_clip` returns
the final MP4 path on transcode success (removing the intermediate file
when present), and on any transcode failure it renames the intermediate
file to an adjusted extension and returns that path provided the
intermediate file exists; when the intermediate file is missing at the
failure handler it returns no artifact, and it also returns no artifact
when the frame list is empty. -/
theorem C4_write_clip_fallback (clip : Clip) (t : Int) (fs : FS)
    (hne : clip.frames ≠ []) :
    (fs.outcome = TranscodeOutcome.success →
      write_clip clip t fs = (some (ClipPath.mp4 t),
        if fs.tempExists then TempFate.removed else TempFate.untouched))
    ∧ (fs.outcome ≠ TranscodeOutcome.success → fs.tempExists = true →
      write_clip clip t fs = (some (ClipPath.avi t), TempFate.renamedToAvi))
    ∧ (fs.outcome ≠ TranscodeOutcome.success → fs.tempExists = false →
      (write_clip clip t fs).1 = none)
    ∧ (∀ c2 : Clip, c2.frames = [] → (write_clip c2 t fs).1 = none) := by
  refine ⟨fun hs => ?_, fun hf ht => ?_, fun hf ht => ?_,
    fun c2 h2 => ?_⟩
  · unfold write_clip
    rw [if_neg hne, hs]
  · unfold write_clip
    rw [if_neg hne]
    cases ho : fs.outcome <;> simp_all
  · unfold write_clip
    rw [if_neg hne]
    cases ho : fs.outcome <;> simp_all
  · unfold write_clip
    rw [if_pos h2]

/-- Concrete runs of `C4_write_clip_fallback`: a failed transcode with
the intermediate file present yields the renamed AVI path; a successful
transcode yields the MP4 path. -/
theorem C4_witness :
    write_clip { start := -1, stop := 1, frames := [0], last := 1 } 5
        { outcome := TranscodeOutcome.otherError, tempExists := true }
      = (some (ClipPath.avi 5), TempFate.renamedToAvi)
    ∧ write_clip { start := -1, stop := 1, frames := [0], last := 1 } 5
        { outcome := TranscodeOutcome.success, tempExists := true }
      = (some (ClipPath.mp4 5), TempFate.removed) :=
  ⟨(C4_write_clip_fallback { start := -1, stop := 1, frames := [0], last := 1 }
      5 { outcome := TranscodeOutcome.otherError, tempExists := true }
      (by simp)).2.1 (by simp) rfl,
   (C4_write_clip_fallback { start := -1, stop := 1, frames := [0], last := 1 }
      5 { outcome := TranscodeOutcome.success, tempExists := true }
      (by simp)).1 rfl⟩

lemma collectFrames_eq_filter (b : List (Frame × Nat)) (c : Clip)
    (hstart : c.start ≤ 0)
    (hpos : ∀ p ∈ b, 1 ≤ p.2)
    (hlast : ∀ p ∈ b, c.last < p.2)
    (hsorted : b.Pairwise (fun p q => p.2 < q.2)) :
    (collectFrames c b).frames
      = c.frames
        ++ (b.filter (fun p => decide ((p.2 : Int) ≤ c.stop))).map Prod.fst := by
  induction b generalizing c with
  | nil => simp [collectFrames]
  | cons p rest ih =>
      rw [collectFrames, List.foldl_cons, ← collectFrames]
      have hp1 : 1 ≤ p.2 := hpos p (by simp)
      have hpl : c.last < p.2 := hlast p (by simp)
      rcases List.pairwise_cons.mp hsorted with ⟨hhead, htail⟩
      by_cases hin : (p.2 : Int) ≤ c.stop
      · have hcond : c.start ≤ (p.2 : Int) ∧ (p.2 : Int) ≤ c.stop
            ∧ c.last < p.2 := by
          refine ⟨le_trans hstart ?_, hin, hpl⟩
          exact_mod_cast Nat.zero_le p.2
        rw [collectStep, if_pos hcond]
        rw [ih { c with frames := c.frames ++ [p.1], last := p.2 }
          hstart (fun q hq => hpos q (by simp [hq]))
          (fun q hq => hhead q hq) htail]
        simp [hin]
      · have hcond : ¬ (c.start ≤ (p.2 : Int) ∧ (p.2 : Int) ≤ c.stop
            ∧ c.last < p.2) := by
          intro hcon
          exact hin hcon.2.1
        rw [collectStep, if_neg hcond]
        rw [ih c hstart (fun q hq => hpos q (by simp [hq]))
          (fun q hq => hlast q (by simp [hq])) htail]
        simp [hin]

/-- Claim C10: a trigger within the first `FPS*5` processed frames yields
a window whose computed start is zero or negative, and the collection
scan still operates safely: with such a window it collects exactly the
buffered frames whose sequence number is at or below the window end (in
buffer order, hence never touching anything outside the buffer), and a
forced call finalizes the window normally. -/
theorem C10_early_trigger_window_safe (d : AccidentDetector) (c : Clip)
    (b : List (Frame × Nat)) (t : Int) (fs : FS)
    (hearly : d.frame_id ≤ d.fps * 5)
    (hstart : c.start ≤ 0) (hlast : c.last = 0)
    (hpos : ∀ p ∈ b, 1 ≤ p.2)
    (hsorted : b.Pairwise (fun p q => p.2 < q.2)) :
    ((AccidentDetector.start_clip d).active_clip = some
      { start := (d.frame_id : Int) - d.fps * 5,
        stop := (d.frame_id : Int) + d.fps * 5, frames := [], last := 0 }
      ∧ (d.frame_id : Int) - d.fps * 5 ≤ 0)
    ∧ (collectFrames c b).frames
        = c.frames
          ++ (b.filter (fun p => decide ((p.2 : Int) ≤ c.stop))).map Prod.fst
    ∧ (∀ d2 : AccidentDetector, d2.active_clip = some c →
        (d2.handle_clip true t fs).1.active_clip = none) := by
  refine ⟨⟨rfl, ?_⟩, ?_, fun d2 h2 => ?_⟩
  · have : (d.frame_id : Int) ≤ (d.fps * 5 : Nat) := by exact_mod_cast hearly
    push_cast at this ⊢
    linarith
  · exact collectFrames_eq_filter b c hstart hpos
      (fun p hp => hlast ▸ Nat.lt_of_lt_of_le Nat.zero_lt_one (hpos p hp))
      hsorted
  · unfold AccidentDetector.handle_clip
    rw [h2]
    simp only [eq_self_iff_true, true_or, if_pos]
    rcases hw : (write_clip (collectFrames c d2.frame_buffer) t fs).1 with _ | p <;>
      simp [hw]

/-- Concrete run of `C10_early_trigger_window_safe`: FPS 1, trigger at
sequence 3 gives window `[-2, 8]`; the scan over a three-frame buffer
collects all three frames. -/
theorem C10_witness :
    ((⟨1, 3, [(4, 1), (5, 2), (6, 3)], [], 0, none⟩ :
        AccidentDetector).start_clip.active_clip
      = some { start := (3 : Int) - 1 * 5, stop := (3 : Int) + 1 * 5,
               frames := [], last := 0 })
    ∧ (collectFrames ⟨-2, 8, [], 0⟩ [(4, 1), (5, 2), (6, 3)]).frames
      = [] ++ ([(4, 1), (5, 2), (6, 3)].filter
          (fun p => decide ((p.2 : Int) ≤ (8 : Int)))).map Prod.fst := by
  have h := C10_early_trigger_window_safe
    ⟨1, 3, [(4, 1), (5, 2), (6, 3)], [], 0, none⟩ ⟨-2, 8, [], 0⟩
    [(4, 1), (5, 2), (6, 3)] 0 ⟨TranscodeOutcome.success, true⟩
    (by norm_num) (by norm_num) rfl (by decide) (by decide)
  exact ⟨h.1.1, h.2.1⟩

/-- One main-loop iteration for one camera, as `track_videos_multithreaded`
drives the detector: `process_frame` followed by `handle_clip(final=False)`. -/
def detTick (d : AccidentDetector) (f : Frame) (confs : List ℚ) (now : ℚ)
    (t : Int) (fs : FS) : AccidentDetector × List DetEvent :=
  let r := d.process_frame f confs now
  ((r.1.handle_clip false t fs).1, r.2)

/-- A run of main-loop iterations at the given wall-clock times, each with
one high-confidence detection. -/
def detRun (d : AccidentDetector) (times : List ℚ) : AccidentDetector :=
  times.foldl
    (fun d now =>
      (detTick d 0 [1] now 0 ⟨TranscodeOutcome.success, true⟩).1) d

/-- Claim C1 counterexample: at FPS 1, triggers at wall-clock 15 opens the
window `[-2, 8]`; with frames arriving slowly, the 12-second cooldown
elapses while the window is still open (sequence 5 is not past 8), and a
second ACCIDENT trigger fires at wall-clock 30 while the first window is
open — so the claimed impossibility of a second trigger during an open
window fails on the code. -/
theorem C1_counterexample :
    ((detRun (initDetector 1) [13, 14, 15, 28, 29]).active_clip).isSome
      = true
    ∧ ((detRun (initDetector 1) [13, 14, 15, 28, 29]).process_frame
        0 [1] 30).2 = [DetEvent.accident 30] := by
  constructor
  · norm_num [detRun, detTick, initDetector, AccidentDetector.process_frame,
      AccidentDetector.start_clip, AccidentDetector.handle_clip,
      collectFrames, collectStep, write_clip, dequeAppend, GLOBAL_COOLDOWN,
      List.filter, List.foldl]
  · norm_num [detRun, detTick, initDetector, AccidentDetector.process_frame,
      AccidentDetector.start_clip, AccidentDetector.handle_clip,
      collectFrames, collectStep, write_clip, dequeAppend, GLOBAL_COOLDOWN,
      List.filter, List.foldl]

/-- Claim C1 (amended): the detector holds at most one ClipWindow at any
time because `active_clip` is a single optional slot, and any trigger
(including one that fires while a window is still open, which the
12-second cooldown does not preclude) replaces the slot with the fresh
window anchored at the current sequence number. -/
theorem C1_single_window_replaced (d : AccidentDetector) (f : Frame)
    (confs : List ℚ) (now : ℚ)
    (h : (d.process_frame f confs now).2 ≠ []) :
    (d.process_frame f confs now).1.active_clip = some
      { start := ((d.frame_id : Int) + 1) - d.fps * 5,
        stop := ((d.frame_id : Int) + 1) + d.fps * 5,
        frames := [], last := 0 }
    ∧ ∀ d2 : AccidentDetector, (d2.active_clip.toList).length ≤ 1 := by
  refine ⟨?_, fun d2 => ?_⟩
  · unfold AccidentDetector.process_frame at h ⊢
    by_cases h1 : confs.filter (fun c => (0.4 : ℚ) < c) ≠ []
        ∧ now - d.global_last > GLOBAL_COOLDOWN
    · simp only [if_pos h1] at h ⊢
      by_cases h2 : d.pending.length + 1 ≥ 3
      · rw [if_pos (by simpa using h2)] at h ⊢
        simp [AccidentDetector.start_clip, Int.ofNat_add_out]
      · rw [if_neg (by simpa using h2)] at h
        simp at h
    · simp only [if_neg h1] at h
      simp at h
  · rcases d2.active_clip with _ | c <;> simp

/-- Concrete run of `C1_single_window_replaced`: the trigger at time 30
replaces the open window with the fresh one anchored at sequence 6. -/
theorem C1_witness :
    ((⟨1, 5, [], [28, 29], 15, some ⟨-2, 8, [0, 0, 0, 0, 0], 5⟩⟩ :
        AccidentDetector).process_frame 0 [1] 30).1.active_clip
      = some { start := ((5 : Int) + 1) - 1 * 5,
               stop := ((5 : Int) + 1) + 1 * 5, frames := [], last := 0 } :=
  (C1_single_window_replaced
    ⟨1, 5, [], [28, 29], 15, some ⟨-2, 8, [0, 0, 0, 0, 0], 5⟩⟩ 0 [1] 30
    (by norm_num [AccidentDetector.process_frame, AccidentDetector.start_clip,
      dequeAppend, GLOBAL_COOLDOWN, List.filter])).1

/-- Claim C5: on a coordinator tick the safety net visits every camera
(element `i` of the map is the safety step applied to camera `i`,
whichever camera's frame triggered the tick); any camera active with a
record and more than 45 seconds since its last event time is force
collected: a resulting clip yields a TRIMMED update with the clip path
plus an asynchronous upload dispatch, no clip yields a FAILED update with
a diagnostic message, and in both cases the camera state resets to
idle. -/
theorem C5_safety_net_all_cameras (cams : List (AccidentDetector × CamState))
    (i : Nat) (det : AccidentDetector) (s : CamState) (rid : Nat)
    (now : ℚ) (t : Int) (fs : FS)
    (hget : cams[i]? = some (det, s))
    (hact : s.active = true) (hid : s.accident_id = some rid)
    (htime : now - s.last_event_time > 45) :
    (safetyNet cams now t fs)[i]? = some (safetyStep (det, s) now t fs)
    ∧ (safetyStep (det, s) now t fs).entry.2.active = false
    ∧ (safetyStep (det, s) now t fs).entry.2.accident_id = none
    ∧ ((det.handle_clip true t fs).2 = [] →
        (safetyStep (det, s) now t fs).updates
          = [{ id := rid, status := RecStatus.FAILED,
               clip_path := some
                 (ClipField.diagnostic (now - s.last_event_time)),
               video_url := none }]
        ∧ (safetyStep (det, s) now t fs).uploads = [])
    ∧ (∀ (p : ClipPath) (rest : List ClipEvent),
        (det.handle_clip true t fs).2 = ClipEvent.ready p :: rest →
        (safetyStep (det, s) now t fs).updates
          = [{ id := rid, status := RecStatus.TRIMMED,
               clip_path := some (ClipField.path p), video_url := none }]
        ∧ (safetyStep (det, s) now t fs).uploads
          = [{ clip_path := p, accident_id := rid }]) := by
  refine ⟨?_, ?_, ?_, fun hnil => ?_, fun p rest hcons => ?_⟩
  · simp [safetyNet, List.getElem?_map, hget]
  · unfold safetyStep
    rw [hid]
    simp only [hact, htime]
    rcases hc : (det.handle_clip true t fs).2 with _ | ⟨e, rest2⟩
    · simp [hc]
    · rcases e with ⟨p2⟩
      simp [hc]
  · unfold safetyStep
    rw [hid]
    simp only [hact, htime]
    rcases hc : (det.handle_clip true t fs).2 with _ | ⟨e, rest2⟩
    · simp [hc]
    · rcases e with ⟨p2⟩
      simp [hc]
  · unfold safetyStep
    rw [hid]
    simp only [hact, htime]
    simp [hnil]
  · unfold safetyStep
    rw [hid]
    simp only [hact, htime]
    simp [hcons]

/-- Concrete run of `C5_safety_net_all_cameras`: a camera that became
active with an open window but whose buffer never held a frame is, at 46
seconds, marked FAILED with a diagnostic and reset. -/
theorem C5_witness :
    (safetyStep (⟨1, 3, [], [], 15, some ⟨-2, 8, [], 0⟩⟩,
        ⟨true, some 3, 0, 1, 0, 0⟩) 46 0
        ⟨TranscodeOutcome.success, true⟩).updates
      = [{ id := 3, status := RecStatus.FAILED,
           clip_path := some (ClipField.diagnostic ((46 : ℚ) - 0)),
           video_url := none }]
    ∧ (safetyStep (⟨1, 3, [], [], 15, some ⟨-2, 8, [], 0⟩⟩,
        ⟨true, some 3, 0, 1, 0, 0⟩) 46 0
        ⟨TranscodeOutcome.success, true⟩).entry.2.active = false :=
  have h := C5_safety_net_all_cameras
    [(⟨1, 3, [], [], 15, some ⟨-2, 8, [], 0⟩⟩, ⟨true, some 3, 0, 1, 0, 0⟩)]
    0 ⟨1, 3, [], [], 15, some ⟨-2, 8, [], 0⟩⟩ ⟨true, some 3, 0, 1, 0, 0⟩
    3 46 0 ⟨TranscodeOutcome.success, true⟩ rfl rfl rfl (by norm_num)
  ⟨(h.2.2.2.1 rfl).1, h.2.1⟩

/-- Claim C7: a dispatched upload that fails (the artifact exists but the
storage upload raises) issues exactly one UPLOAD_FAILED update keeping
the clip path and does not remove the local artifact; the coordinator
resets the camera state in the same tick that dispatches the upload
(`upload_clip_async` runs in a separate process and its outcome is not an
input of `step1`/`step2`), so a later qualifying trigger on the same
camera is accepted regardless of the upload outcome. -/
theorem C7_upload_failure_isolated :
    (∀ (p : ClipPath) (rid : Nat) (env : UploadEnv),
        env.fileExists = true → env.uploadOk = false →
        upload_clip_async p rid env
          = ([{ id := rid, status := RecStatus.UPLOAD_FAILED,
                clip_path := some (ClipField.path p), video_url := none }],
             false))
    ∧ (∀ (s : CamState) (rdy : List ClipEvent),
        (step2 s rdy).2.2 ≠ [] →
        (step2 s rdy).1.active = false
        ∧ (step2 s rdy).1.accident_id = none
        ∧ (step2 s rdy).1.last_event_time = s.last_event_time)
    ∧ (∀ (s : CamState) (rdy : List ClipEvent) (events : List DetEvent)
        (now : ℚ) (cr : Option Nat),
        (step2 s rdy).2.2 ≠ [] → events ≠ [] →
        now - s.last_event_time > 45 →
        (step1 (step2 s rdy).1 events now cr).2 = true) := by
  have hstep2 : ∀ (s : CamState) (rdy : List ClipEvent),
      (step2 s rdy).2.2 ≠ [] →
      (step2 s rdy).1.active = false
      ∧ (step2 s rdy).1.accident_id = none
      ∧ (step2 s rdy).1.last_event_time = s.last_event_time := by
    intro s rdy h
    rcases hid : s.accident_id with _ | rid
    · simp [step2, hid] at h
    · by_cases hact : s.active = true
      · rcases rdy with _ | ⟨⟨p⟩, rest⟩
        · simp [step2, hid, hact] at h
        · simp [step2, hid, hact]
      · simp [step2, hid, hact] at h
  refine ⟨fun p rid env hex hup => ?_, hstep2, fun s rdy events now cr h hev hnow => ?_⟩
  · unfold upload_clip_async
    rw [if_neg (by simp [hex]), if_neg (by simp [hup])]
  · rcases hstep2 s rdy h with ⟨hact, _, hlet⟩
    unfold step1
    rw [if_pos ⟨hact, hev, by rw [hlet]; exact hnow⟩]
    rcases cr with _ | rid <;> rfl

/-- Concrete run of `C7_upload_failure_isolated`: a failing upload for
record 2 marks it UPLOAD_FAILED keeping the artifact, and after a
dispatching tick the reset camera accepts a creation request at time
50. -/
theorem C7_witness :
    upload_clip_async (ClipPath.mp4 1) 2 ⟨true, false, 0, true⟩
      = ([{ id := 2, status := RecStatus.UPLOAD_FAILED,
            clip_path := some (ClipField.path (ClipPath.mp4 1)),
            video_url := none }], false)
    ∧ (step1 (step2 ⟨true, some 2, 0, 1, 0, 0⟩
          [ClipEvent.ready (ClipPath.mp4 1)]).1
        [DetEvent.accident 50] 50 (some 4)).2 = true :=
  ⟨(C7_upload_failure_isolated).1 (ClipPath.mp4 1) 2 ⟨true, false, 0, true⟩
      rfl rfl,
   (C7_upload_failure_isolated).2.2 ⟨true, some 2, 0, 1, 0, 0⟩
      [ClipEvent.ready (ClipPath.mp4 1)] [DetEvent.accident 50] 50 (some 4)
      (by simp [step2]) (by simp) (by norm_num)⟩

lemma step1_requested (s : CamState) (ev : List DetEvent) (now : ℚ)
    (cr : Option Nat) (h : (step1 s ev now cr).2 = true) :
    s.active = false ∧ ev ≠ [] ∧ now - s.last_event_time > 45 := by
  by_cases hc : s.active = false ∧ ev ≠ [] ∧ now - s.last_event_time > 45
  · exact hc
  · rcases cr with _ | rid <;> simp [step1, hc] at h

lemma step1_state_none (s : CamState) (ev : List DetEvent) (now : ℚ) :
    (step1 s ev now none).1 = s := by
  by_cases hc : s.active = false ∧ ev ≠ [] ∧ now - s.last_event_time > 45 <;>
    simp [step1, hc]

lemma step1_not_requested (s : CamState) (ev : List DetEvent) (now : ℚ)
    (cr : Option Nat) (h : (step1 s ev now cr).2 = false) :
    (step1 s ev now cr).1 = s := by
  by_cases hc : s.active = false ∧ ev ≠ [] ∧ now - s.last_event_time > 45
  · rcases cr with _ | rid
    · simp [step1, hc]
    · simp [step1, hc] at h
  · rcases cr with _ | rid <;> simp [step1, hc]

lemma step1_some_created (s : CamState) (ev : List DetEvent) (now : ℚ)
    (rid : Nat) (h : (step1 s ev now (some rid)).2 = true) :
    (step1 s ev now (some rid)).1.last_event_time = now := by
  by_cases hc : s.active = false ∧ ev ≠ [] ∧ now - s.last_event_time > 45
  · simp [step1, hc]
  · simp [step1, hc] at h

lemma step2_last_event_time (s : CamState) (rdy : List ClipEvent) :
    (step2 s rdy).1.last_event_time = s.last_event_time := by
  rcases hid : s.accident_id with _ | rid
  · simp [step2, hid]
  · by_cases hact : s.active = true
    · rcases rdy with _ | ⟨⟨p⟩, rest⟩ <;> simp [step2, hid, hact]
    · simp [step2, hid, hact]

lemma safetyStep_last_event_time (e : AccidentDetector × CamState)
    (now : ℚ) (t : Int) (fs : FS) :
    (safetyStep e now t fs).entry.2.last_event_time
      = e.2.last_event_time := by
  rcases hid : e.2.accident_id with _ | rid
  · simp [safetyStep, hid]
  · by_cases hc : e.2.active = true ∧ now - e.2.last_event_time > 45
    · rcases hcl : (e.1.handle_clip true t fs).2 with _ | ⟨⟨p⟩, rest⟩ <;>
        simp [safetyStep, hid, hc, hcl]
    · simp [safetyStep, hid, hc]

lemma camTick_created (p : AccidentDetector × CamState) (inp : TickInput)
    (rid : Nat) (h : (camTick p inp).2 = some rid) :
    inp.now - p.2.last_event_time > 45
    ∧ (camTick p inp).1.2.last_event_time = inp.now := by
  by_cases hcur : inp.isCurrent = true
  · simp only [camTick, hcur, if_pos] at h ⊢
    by_cases hreq :
        (step1 p.2 (p.1.process_frame inp.frame inp.confs inp.now).2
          inp.now inp.createResult).2 = true
    · rw [if_pos hreq] at h
      refine ⟨(step1_requested _ _ _ _ hreq).2.2, ?_⟩
      rw [safetyStep_last_event_time, step2_last_event_time]
      rw [h] at hreq ⊢
      exact step1_some_created _ _ _ _ hreq
    · rw [if_neg hreq] at h
      simp at h
  · simp [camTick, hcur] at h

lemma camTick_not_created (p : AccidentDetector × CamState)
    (inp : TickInput) (h : (camTick p inp).2 = none) :
    (camTick p inp).1.2.last_event_time = p.2.last_event_time := by
  by_cases hcur : inp.isCurrent = true
  · simp only [camTick, hcur, if_pos] at h ⊢
    rw [safetyStep_last_event_time, step2_last_event_time]
    by_cases hreq :
        (step1 p.2 (p.1.process_frame inp.frame inp.confs inp.now).2
          inp.now inp.createResult).2 = true
    · rw [if_pos hreq] at h
      rw [h] at hreq ⊢
      rw [step1_state_none]
    · rw [step1_not_requested _ _ _ _ (by simpa using hreq)]
  · simp [camTick, hcur, safetyStep_last_event_time]

lemma creationTimes_spec (inps : List TickInput) :
    ∀ p : AccidentDetector × CamState,
      List.Pairwise (fun a b : ℚ => a + 45 < b) (creationTimes p inps)
      ∧ ∀ x ∈ creationTimes p inps, p.2.last_event_time + 45 < x := by
  induction inps with
  | nil => intro p; simp [creationTimes]
  | cons i rest ih =>
      intro p
      rcases hcr : (camTick p i).2 with _ | rid
      · have hlet := camTick_not_created p i hcr
        have h2 := ih (camTick p i).1
        simp only [creationTimes, hcr, Option.isSome_none,
          Bool.false_eq_true, if_false, List.nil_append]
        exact ⟨h2.1, fun x hx => hlet ▸ h2.2 x hx⟩
      · have hc := camTick_created p i rid hcr
        have h2 := ih (camTick p i).1
        simp only [creationTimes, hcr, Option.isSome_some, if_true,
          List.singleton_append]
        have hsep : ∀ x ∈ creationTimes (camTick p i).1 rest,
            i.now + 45 < x := by
          intro x hx
          have hx2 := h2.2 x hx
          rwa [hc.2] at hx2
        refine ⟨List.pairwise_cons.mpr ⟨hsep, h2.1⟩, ?_⟩
        intro x hx
        rcases List.mem_cons.mp hx with hx1 | hx2
        · subst hx1
          linarith [hc.1]
        · have h45 := hsep x hx2
          have h46 := hc.1
          linarith

/-- Claim C6: the coordinator requests record creation only when the
camera is not active and more than 45 seconds have elapsed since its
`last_event_time`; consequently, along any run of coordinator ticks, the
times of successful record creations for a camera are pairwise more than
45 seconds apart — two triggers within 45 seconds never produce more
than one record creation. -/
theorem C6_record_level_debounce :
    (∀ (s : CamState) (events : List DetEvent) (now : ℚ)
        (cr : Option Nat),
        (step1 s events now cr).2 = true →
        s.active = false ∧ events ≠ [] ∧ now - s.last_event_time > 45)
    ∧ (∀ (p : AccidentDetector × CamState) (inps : List TickInput),
        List.Pairwise (fun a b : ℚ => a + 45 < b) (creationTimes p inps)) :=
  ⟨fun s ev now cr h => step1_requested s ev now cr h,
   fun p inps => (creationTimes_spec inps p).1⟩

/-- Concrete run of `C6_record_level_debounce`: an idle camera with a
46-second gap issues a creation request, and the guard conditions hold at
that input. -/
theorem C6_witness :
    (⟨false, none, 0, 1, 0, 0⟩ : CamState).active = false
    ∧ [DetEvent.accident 50] ≠ ([] : List DetEvent)
    ∧ (50 : ℚ) - (⟨false, none, 0, 1, 0, 0⟩ : CamState).last_event_time
        > 45 :=
  C6_record_level_debounce.1 ⟨false, none, 0, 1, 0, 0⟩
    [DetEvent.accident 50] 50 (some 7) (by norm_num [step1])
